import Mathlib

/-!
Verification of the control supervisor in `selfdrive/controls/controlsd.py`.

The definitions below are a shallow embedding of the parts of `controlsd.py`
that the checked claims are about: the engagement state machine
(`state_transition`, lines 635-712), the actuator finiteness guard in
`state_control` (lines 792-800), the cruise-cancel computation in
`publish_logs` (lines 826-828), the set-speed low-pass (`update_max_speed`,
lines 379-385), the lead-vehicle safe speed (`get_long_lead_safe_speed`,
lines 254-276), the lead-clamp block of `cal_max_speed` (lines 356-365),
the `controlsMismatch` emission in `update_events` (lines 458-465) together
with the mismatch counter of `data_sample` (lines 596-602), and the two
`cal_curve_speed` definitions (lines 278-303 and 608-633).

Python machine floats are modelled by exact rationals (or, for the
curve-speed pipeline which uses square roots, by real numbers); Python ints
by `Nat`/`Int`.  A field read from a capnp message is passed as an explicit
argument.
-/

/-! ### Engagement state machine (lines 635-712) -/

/-- The `log.ControlsState.OpenpilotState` values used by `controlsd.py`. -/
inductive OpState
  | disabled
  | preEnabled
  | enabled
  | softDisabling
deriving DecidableEq, Repr

/-- Per-tick view of the event set: for each alert type consulted by
`state_transition`, whether `self.events.any(ET.<type>)` holds this tick. -/
structure EventFlags where
  userDisable : Bool
  immediateDisable : Bool
  softDisable : Bool
  preEnable : Bool
  enable : Bool
  noEntry : Bool
deriving DecidableEq, Repr

/-- The supervisor fields mutated by `state_transition` that the claims are
about: `self.state`, `self.enabled`, `self.active`, `self.soft_disable_timer`
(lines 159-164 initialise them). -/
structure CtrlState where
  state : OpState
  enabled : Bool
  active : Bool
  soft_disable_timer : Nat
deriving DecidableEq, Repr

/-- `int(SOFT_DISABLE_TIME / DT_CTRL)` with `SOFT_DISABLE_TIME = 3` and
`DT_CTRL = 0.01`: the double division `3 / 0.01` rounds to exactly `300.0`,
so the timer reload is 300 ticks. -/
def SOFT_DISABLE_FRAMES : Nat := 300

/-- Lines 648-704 of `state_transition`: the soft-disable timer is first
decremented with a floor of zero (line 650, `Nat` subtraction), then the
next state is selected.  Returns `(next state, next timer)`. -/
def transitionCore (s : CtrlState) (E : EventFlags) : OpState × Nat :=
  let t := s.soft_disable_timer - 1
  if s.state ≠ OpState.disabled then
    if E.userDisable then (OpState.disabled, t)
    else if E.immediateDisable then (OpState.disabled, t)
    else if s.state = OpState.enabled then
      (if E.softDisable then (OpState.softDisabling, SOFT_DISABLE_FRAMES)
       else (OpState.enabled, t))
    else if s.state = OpState.softDisabling then
      (if !E.softDisable then (OpState.enabled, t)
       else if E.softDisable && decide (0 < t) then (OpState.softDisabling, t)
       else if t ≤ 0 then (OpState.disabled, t)
       else (s.state, t))
    else if s.state = OpState.preEnabled then
      (if !E.preEnable then (OpState.enabled, t)
       else (OpState.preEnabled, t))
    else (s.state, t)
  else
    if E.enable then
      (if E.noEntry then (OpState.disabled, t)
       else if E.preEnable then (OpState.preEnabled, t)
       else (OpState.enabled, t))
    else (OpState.disabled, t)

/-- Lines 706-712: `self.active = state in {enabled, softDisabling}` and
`self.enabled = self.active or state == preEnabled`, recomputed from the
final state on every call. -/
def applyFlags (st : OpState) (t : Nat) : CtrlState :=
  let a := st == OpState.enabled || st == OpState.softDisabling
  { state := st, enabled := a || st == OpState.preEnabled, active := a,
    soft_disable_timer := t }

/-- `Controls.state_transition` restricted to the fields it mutates. -/
def state_transition (s : CtrlState) (E : EventFlags) : CtrlState :=
  applyFlags (transitionCore s E).1 (transitionCore s E).2

/-- Lines 159-164: the supervisor starts disabled with both flags cleared
and the soft-disable timer at zero. -/
def initialState : CtrlState :=
  { state := OpState.disabled, enabled := false, active := false,
    soft_disable_timer := 0 }

/-- States reachable from `initialState` under any sequence of calls to
`state_transition`.  On ticks where `state_transition` is skipped
(`¬initialized ∨ read_only`, line 985) these four fields are unchanged, so
reachability of the end-of-tick state is captured by this relation. -/
inductive Reachable : CtrlState → Prop
  | init : Reachable initialState
  | tick (s : CtrlState) (E : EventFlags) (h : Reachable s) :
      Reachable (state_transition s E)

/-- Iterated ticks: `ticks s Es n` is the state after applying
`state_transition` `n` times, with the event flags of tick `i` given by
`Es i`. -/
def ticks (s : CtrlState) (Es : Nat → EventFlags) : Nat → CtrlState
  | 0 => s
  | n + 1 => state_transition (ticks s Es n) (Es n)

/-! ### Actuator finiteness guard (`state_control`, lines 792-800) -/

/-- A Python machine float as seen by `math.isfinite`: either a finite value
(modelled exactly by a rational) or one of the non-finite values. -/
inductive FVal
  | fin (q : ℚ)
  | nan
  | inf
  | ninf
deriving DecidableEq, Repr

/-- `math.isfinite` on the model. -/
def FVal.isFinite : FVal → Bool
  | FVal.fin _ => true
  | _ => false

/-- Modelled from the spec: the `longControlState` enum attached to the
actuators record (`cereal` schema, not in `src/`); the guard skips it
because it is not a `Number`. -/
inductive LongCtrlState
  | off
  | pid
  | stopping
  | starting
deriving DecidableEq, Repr

/-- Modelled from the spec: `car.CarControl.Actuators` (schema not in
`src/`) restricted to the fields named by the spec — numeric `accel`,
`steer`, `steeringAngleDeg` plus the enum `longControlState`.  The guard of
lines 792-800 iterates over all numeric fields uniformly. -/
structure Actuators where
  accel : FVal
  steer : FVal
  steeringAngleDeg : FVal
  longControlState : LongCtrlState
deriving DecidableEq, Repr

/-- Lines 792-800: every numeric actuator field that is not finite is
replaced by `0.0` (the non-numeric `longControlState` is skipped by the
`isinstance(attr, Number)` test). -/
def ensure_no_nans (a : Actuators) : Actuators :=
  { a with
    accel := if a.accel.isFinite then a.accel else FVal.fin 0,
    steer := if a.steer.isFinite then a.steer else FVal.fin 0,
    steeringAngleDeg :=
      if a.steeringAngleDeg.isFinite then a.steeringAngleDeg
      else FVal.fin 0 }

/-- The tail of `state_control`: the guard loop reads and writes only the
actuators record; the engagement fields of the supervisor are passed
through untouched. -/
def state_control_guard (s : CtrlState) (a : Actuators) :
    CtrlState × Actuators :=
  (s, ensure_no_nans a)

/-! ### Cruise cancel (`publish_logs`, lines 826-828) -/

/-- Lines 826-828: `CC.cruiseControl.cancel` is first computed from the PCM
cruise state, then forced to `True` when the joystick debug harness has a
received frame with its first button pressed. -/
def cruise_cancel (cruiseStateEnabled enabled pcmCruise joystick_mode : Bool)
    (testJoystickRcvFrame : Nat) (joystickButton0 : Bool) : Bool :=
  let c := cruiseStateEnabled && (!enabled || !pcmCruise)
  if joystick_mode && decide (0 < testJoystickRcvFrame) && joystickButton0
  then true else c

/-- The claim's formula for `cruiseControl.cancel`, stated from the spec's
words: PCM cruise enabled and (not supervisor-enabled or not pcmCruise). -/
def cruise_cancel_claimed (cruiseStateEnabled enabled pcmCruise : Bool) :
    Bool :=
  cruiseStateEnabled && (!enabled || !pcmCruise)

/-! ### Set-speed low pass (`update_max_speed`, lines 379-385) -/

/-- Lines 379-385: snap to the target when adaptive cruise is off or the
stored value is non-positive, otherwise apply the first-order low-pass with
`kp = 0.01`. -/
def update_max_speed (max_speed : ℚ) (adaptiveCruise : Bool)
    (max_speed_clu : ℚ) : ℚ :=
  if adaptiveCruise = false ∨ max_speed_clu ≤ 0 then max_speed
  else max_speed_clu + (max_speed - max_speed_clu) * (1 / 100)

/-! ### Lead-vehicle safe speed (lines 248-276) -/

/-- The fields of `radarState.leadOne` read by `get_lead` and
`get_long_lead_safe_speed`. -/
structure LeadOne where
  status : Bool
  dRel : ℚ
  vRel : ℚ
deriving DecidableEq, Repr

/-- Lines 248-252: `get_lead` returns the radar lead when its status flag
is set, else `None`. -/
def get_lead (radarLeadOne : LeadOne) : Option LeadOne :=
  if radarLeadOne.status then some radarLeadOne else none

/-- Lines 254-276: the lead-vehicle safe speed.  `speed_conv_to_clu` and
`min_set_speed_clu` are per-instance constants passed as arguments. -/
def get_long_lead_safe_speed (vEgo : ℚ) (radarLeadOne : LeadOne)
    (adaptiveCruise : Bool) (speed_conv_to_clu min_set_speed_clu : ℚ) : ℚ :=
  if adaptiveCruise then
    match get_lead radarLeadOne with
    | some lead =>
      let d := lead.dRel - 5
      if 0 < d ∧ d < -lead.vRel * ((9 + 3) * 2) ∧ lead.vRel < -1 then
        let t := d / lead.vRel
        let accel := -(lead.vRel / t) * speed_conv_to_clu * (1 / 1000)
        if accel < 0 then max (vEgo + accel) min_set_speed_clu else 0
      else 0
    | none => 0
  else 0

/-- The claim's description of the lead-vehicle safe speed, stated from the
spec's words for comparison with the source translation. -/
def long_lead_safe_speed_spec (vEgo dRel vRel : ℚ) (hasLead adaptive : Bool)
    (speedConvToClu min_set_speed_clu : ℚ) : ℚ :=
  if adaptive ∧ hasLead ∧ vRel < -1 ∧ 0 < dRel - 5 ∧ dRel - 5 < -vRel * 24
  then
    let t := (dRel - 5) / vRel
    let accel := -(vRel / t) * speedConvToClu * (1 / 1000)
    if accel < 0 then max (vEgo + accel) min_set_speed_clu else 0
  else 0

/-! ### Lead clamp in `cal_max_speed` (lines 356-365) -/

/-- Result of the lead-clamp block: the local `max_speed_clu` candidate,
the persisted `self.max_speed_clu`, and the persisted `self.limited_lead`
flag. -/
structure LeadClampResult where
  max_speed_local : ℚ
  max_speed_clu : ℚ
  limited_lead : Bool
deriving DecidableEq, Repr

/-- Lines 356-365 of `cal_max_speed`: compute the lead-safe speed, and when
it is at least `min_set_speed_clu` and below the current candidate, clamp
the candidate and — only on a rising edge of `limited_lead` — re-seed
`self.max_speed_clu` to `vEgo + 3`; when the lead-safe speed is below
`min_set_speed_clu`, clear `limited_lead`. -/
def lead_clamp (vEgo : ℚ) (radarLeadOne : LeadOne) (adaptiveCruise : Bool)
    (speed_conv_to_clu min_set_speed_clu : ℚ)
    (max_speed_local max_speed_clu : ℚ) (limited_lead : Bool) :
    LeadClampResult :=
  let lead_speed := get_long_lead_safe_speed vEgo radarLeadOne adaptiveCruise
    speed_conv_to_clu min_set_speed_clu
  if min_set_speed_clu ≤ lead_speed then
    if lead_speed < max_speed_local then
      if limited_lead = false then
        { max_speed_local := min max_speed_local lead_speed,
          max_speed_clu := vEgo + 3, limited_lead := true }
      else
        { max_speed_local := min max_speed_local lead_speed,
          max_speed_clu := max_speed_clu, limited_lead := limited_lead }
    else
      { max_speed_local := max_speed_local, max_speed_clu := max_speed_clu,
        limited_lead := limited_lead }
  else
    { max_speed_local := max_speed_local, max_speed_clu := max_speed_clu,
      limited_lead := false }

/-! ### controlsMismatch emission (lines 458-465, 596-602) -/

/-- Modelled from the spec: `car.CarParams.SafetyModel` (cereal enum, not in
`src/`).  The code distinguishes only `silent` and `noOutput`; every other
member is an opaque tag. -/
inductive SafetyModel
  | silent
  | noOutput
  | other (n : Nat)
deriving DecidableEq, Repr

/-- Line 65: the safety modes ignored by the panda cross-checks. -/
def IGNORED_SAFETY_MODES : List SafetyModel :=
  [SafetyModel.silent, SafetyModel.noOutput]

/-- The fields of a `pandaStates` entry read by the modelled code. -/
structure PandaState where
  safetyModel : SafetyModel
  safetyParam : ℤ
  controlsAllowed : Bool
deriving DecidableEq, Repr

/-- An entry of `CP.safetyConfigs`. -/
structure SafetyConfig where
  safetyModel : SafetyModel
  safetyParam : ℤ
deriving DecidableEq, Repr

/-- Lines 460-463: a panda at index `i` mismatches when its
`(safetyModel, safetyParam)` differs from the configured entry at `i`, or —
beyond the configured list — when its safety model is not ignored. -/
def safety_mismatch (cfgs : List SafetyConfig) (i : Nat) (p : PandaState) :
    Bool :=
  match cfgs[i]? with
  | some cfg =>
    decide (p.safetyModel ≠ cfg.safetyModel ∨ p.safetyParam ≠ cfg.safetyParam)
  | none => decide (p.safetyModel ∉ IGNORED_SAFETY_MODES)

/-- The loop of lines 458-465: `controlsMismatch` ends up in the event set
exactly when some iteration adds it, i.e. when for some panda the mismatch
test or the counter test fires. -/
def controls_mismatch_loop (cfgs : List SafetyConfig)
    (mismatch_counter : Nat) : Nat → List PandaState → Bool
  | _, [] => false
  | i, p :: rest =>
    (safety_mismatch cfgs i p || decide (200 ≤ mismatch_counter)) ||
      controls_mismatch_loop cfgs mismatch_counter (i + 1) rest

/-- Whether `update_events` adds `controlsMismatch` this tick. -/
def controls_mismatch_event (pandas : List PandaState)
    (cfgs : List SafetyConfig) (mismatch_counter : Nat) : Bool :=
  controls_mismatch_loop cfgs mismatch_counter 0 pandas

/-- Whether any panda (at its index) fails the safety cross-check. -/
def any_safety_mismatch (cfgs : List SafetyConfig) :
    Nat → List PandaState → Bool
  | _, [] => false
  | i, p :: rest =>
    safety_mismatch cfgs i p || any_safety_mismatch cfgs (i + 1) rest

/-- The claim's condition, stated from its words: some panda deviates, or
the persisted mismatch counter exceeds 200. -/
def controls_mismatch_claimed (pandas : List PandaState)
    (cfgs : List SafetyConfig) (mismatch_counter : Nat) : Bool :=
  any_safety_mismatch cfgs 0 pandas || decide (200 < mismatch_counter)

/-- The amended condition: some panda deviates, or at least one panda is
present and the counter has reached 200. -/
def controls_mismatch_amended (pandas : List PandaState)
    (cfgs : List SafetyConfig) (mismatch_counter : Nat) : Bool :=
  any_safety_mismatch cfgs 0 pandas ||
    (!pandas.isEmpty && decide (200 ≤ mismatch_counter))

/-- Lines 596-602 of `data_sample`: the persisted mismatch counter is reset
while not enabled and incremented when some panda outside the ignored
safety modes reports `controlsAllowed = False` while enabled. -/
def update_mismatch_counter (enabled : Bool) (pandas : List PandaState)
    (mismatch_counter : Nat) : Nat :=
  let c := if enabled then mismatch_counter else 0
  if (pandas.filter
        (fun ps => decide (ps.safetyModel ∉ IGNORED_SAFETY_MODES))).any
      (fun ps => !ps.controlsAllowed && enabled)
  then c + 1 else c

/-! ### Curve speed (lines 278-303 and 608-633)

The Python class body defines `cal_curve_speed` twice; the later definition
(lines 608-633) shadows the earlier one (lines 278-303), so the method that
actually runs uses the 10-tick cadence, the fixed window
`curv[5:TRAJECTORY_SIZE-10]`, the factor `0.70` and the 32 km/h floor.
The pipeline is modelled over the exact reals; IEEE NaN propagation has no
counterpart here (over ℝ a NaN is never produced, and the `np.isnan`
re-check on lines 300 and 628 is subsumed by the `255` branches). -/

/-- Modelled from the spec: the planner path has fixed length
`TRAJECTORY_SIZE` (from `lane_planner`, not in `src/`; upstream value 33). -/
def TRAJECTORY_SIZE : Nat := 33

/-- Modelled from the spec: `CV.KPH_TO_MS` (conversion table not in
`src/`). -/
noncomputable def KPH_TO_MS : ℝ := 1 / 3.6

/-- Modelled from the spec: `MIN_CURVE_SPEED` from the missing
`selfdrive.car.gm.values`, the curvature-speed floor (upstream 32 km/h in
m/s). -/
noncomputable def MIN_CURVE_SPEED : ℝ := 32 * KPH_TO_MS

/-- `md.position` as read by `cal_curve_speed`. -/
structure ModelPosition where
  x : List ℝ
  y : List ℝ

/-- Python slice `l[a:b]` (with `0 ≤ a ≤ b`). -/
def pySlice (l : List ℝ) (a b : Nat) : List ℝ :=
  (l.drop a).take (b - a)

/-- `np.gradient(y, x)` for 1-D arrays with a coordinate array and the
default first-order edges: one-sided differences at both ends and the
second-order non-uniform central formula in the interior. -/
noncomputable def npGradient (y x : List ℝ) : List ℝ :=
  (List.range y.length).map fun i =>
    if i = 0 then
      (y.getD 1 0 - y.getD 0 0) / (x.getD 1 0 - x.getD 0 0)
    else if i = y.length - 1 then
      (y.getD i 0 - y.getD (i - 1) 0) / (x.getD i 0 - x.getD (i - 1) 0)
    else
      let hs := x.getD i 0 - x.getD (i - 1) 0
      let hd := x.getD (i + 1) 0 - x.getD i 0
      (-(hd / (hs * (hs + hd)))) * y.getD (i - 1) 0 +
        ((hd - hs) / (hs * hd)) * y.getD i 0 +
        (hs / (hd * (hs + hd))) * y.getD (i + 1) 0

/-- `np.mean` of a 1-D array. -/
noncomputable def npMean (l : List ℝ) : ℝ := l.sum / l.length

/-- Lines 615-617 (identical on lines 285-287): curvature of the predicted
path by finite differences, `κ = y″ / (1 + y′²)^1.5`. -/
noncomputable def curvList (md : ModelPosition) : List ℝ :=
  let dy := npGradient md.y md.x
  let d2y := npGradient dy md.x
  List.zipWith (fun a b => a / b) d2y
    (dy.map fun d => (1 + d ^ 2) ^ (1.5 : ℝ))

/-- Lines 618-621 of the effective definition: window
`curv[5:TRAJECTORY_SIZE-10]`, lateral-acceleration cap
`a_y_max = 2.975 - v_ego * 0.0375`, elementwise
`sqrt(a_y_max / clip(|curv|, 1e-4, None))`, then `mean(...) * 0.70`. -/
noncomputable def cal_curve_model_speed (md : ModelPosition) (v_ego : ℝ) :
    ℝ :=
  let curv := pySlice (curvList md) 5 (TRAJECTORY_SIZE - 10)
  let a_y_max := 2.975 - v_ego * 0.0375
  let v_curvature :=
    ((curv.map (fun c => |c|)).map (fun c => max c (1 / 10000))).map
      (fun c => Real.sqrt (a_y_max / c))
  npMean v_curvature * 0.70

/-- Lines 608-633: the `cal_curve_speed` that actually runs (the second
definition in the class body, which shadows the first).  Takes the previous
`self.curve_speed_ms` and returns its new value. -/
noncomputable def cal_curve_speed (md : ModelPosition) (v_ego : ℝ)
    (frame : Nat) (curve_speed_ms : ℝ) : ℝ :=
  if frame % 10 = 0 then
    if md.x.length = TRAJECTORY_SIZE ∧ md.y.length = TRAJECTORY_SIZE then
      if cal_curve_model_speed md v_ego < v_ego then
        max (cal_curve_model_speed md v_ego) (32 * KPH_TO_MS)
      else 255
    else 255
  else curve_speed_ms

/-- Modelled from the spec: `common.numpy_fast.interp` (not in `src/`) on a
single breakpoint pair — linear interpolation clamped at the endpoints. -/
noncomputable def npInterp (v x0 x1 y0 y1 : ℝ) : ℝ :=
  if v ≤ x0 then y0
  else if x1 ≤ v then y1
  else y0 + (v - x0) * (y1 - y0) / (x1 - x0)

/-- Lines 278-303: the first, shadowed `cal_curve_speed` — the definition
the claim describes — with the 20-tick cadence, the `interp`-based window
start, the factor `0.85 * sccCurvatureFactor` and the `MIN_CURVE_SPEED`
floor. -/
noncomputable def cal_curve_speed_shadowed (sccCurvatureFactor : ℝ)
    (md : ModelPosition) (v_ego : ℝ) (frame : Nat) (curve_speed_ms : ℝ) :
    ℝ :=
  if frame % 20 = 0 then
    if md.x.length = TRAJECTORY_SIZE ∧ md.y.length = TRAJECTORY_SIZE then
      let start := ⌊npInterp v_ego 10 27 10 ((TRAJECTORY_SIZE : ℝ) - 10)⌋₊
      let curv :=
        pySlice (curvList md) start (min (start + 10) TRAJECTORY_SIZE)
      let a_y_max := 2.975 - v_ego * 0.0375
      let v_curvature :=
        ((curv.map (fun c => |c|)).map (fun c => max c (1 / 10000))).map
          (fun c => Real.sqrt (a_y_max / c))
      let model_speed := npMean v_curvature * 0.85 * sccCurvatureFactor
      if model_speed < v_ego then max model_speed MIN_CURVE_SPEED else 255
    else 255
  else curve_speed_ms

/-- The formula of the amended claim for the recompute branch: factor 0.70
over the fixed window `curv[5:TRAJECTORY_SIZE-10]`. -/
noncomputable def curve_speed_formula_amended (md : ModelPosition)
    (v_ego : ℝ) : ℝ :=
  0.70 * npMean ((pySlice (curvList md) 5 (TRAJECTORY_SIZE - 10)).map
    (fun k => Real.sqrt ((2.975 - v_ego * 0.0375) / max |k| (1 / 10000))))

/-! Helper lemmas about single transitions. -/

theorem applyFlags_invariant (st : OpState) (t : Nat) :
    ((applyFlags st t).enabled = true ↔
      ((applyFlags st t).state = OpState.preEnabled ∨
       (applyFlags st t).state = OpState.enabled ∨
       (applyFlags st t).state = OpState.softDisabling)) ∧
    ((applyFlags st t).active = true ↔
      ((applyFlags st t).state = OpState.enabled ∨
       (applyFlags st t).state = OpState.softDisabling)) := by
  cases st <;> simp [applyFlags]

theorem state_transition_state_eq (s : CtrlState) (E : EventFlags) :
    (state_transition s E).state = (transitionCore s E).1 ∧
    (state_transition s E).soft_disable_timer = (transitionCore s E).2 := by
  simp [state_transition, applyFlags]

/-- Entering soft disable: from `enabled` with a `SOFT_DISABLE` event and no
disable events of higher priority, the next state is `softDisabling` with
the timer reloaded to 300. -/
theorem enter_softDisabling (s : CtrlState) (E : EventFlags)
    (hs : s.state = OpState.enabled) (hsd : E.softDisable = true)
    (hud : E.userDisable = false) (hid : E.immediateDisable = false) :
    (state_transition s E).state = OpState.softDisabling ∧
    (state_transition s E).soft_disable_timer = 300 := by
  simp [state_transition, transitionCore, applyFlags, hs, hsd, hud, hid,
    SOFT_DISABLE_FRAMES]

/-- Staying in soft disable: with at least two ticks left on the timer, a
continued `SOFT_DISABLE` keeps the state and decrements the timer. -/
theorem stay_softDisabling (s : CtrlState) (E : EventFlags)
    (hs : s.state = OpState.softDisabling) (ht : 2 ≤ s.soft_disable_timer)
    (hsd : E.softDisable = true) (hud : E.userDisable = false)
    (hid : E.immediateDisable = false) :
    (state_transition s E).state = OpState.softDisabling ∧
    (state_transition s E).soft_disable_timer = s.soft_disable_timer - 1 := by
  have h1 : 0 < s.soft_disable_timer - 1 := by omega
  simp [state_transition, transitionCore, applyFlags, hs, hsd, hud, hid, h1]

/-- Timer expiry: with one tick left, the decrement reaches zero and the
state falls to `disabled`. -/
theorem exit_softDisabling (s : CtrlState) (E : EventFlags)
    (hs : s.state = OpState.softDisabling) (ht : s.soft_disable_timer = 1)
    (hsd : E.softDisable = true) (hud : E.userDisable = false)
    (hid : E.immediateDisable = false) :
    (state_transition s E).state = OpState.disabled := by
  simp [state_transition, transitionCore, applyFlags, hs, hsd, hud, hid, ht]

/-- Invariant run for C3: after the entry tick, as long as `SOFT_DISABLE`
persists and no higher-priority disable fires, tick `k + 1` is still
`softDisabling` with timer `300 - k`, for all `k ≤ 299`. -/
theorem soft_disable_run (s : CtrlState) (Es : Nat → EventFlags)
    (hs : s.state = OpState.enabled)
    (hE0 : (Es 0).softDisable = true ∧ (Es 0).userDisable = false ∧
      (Es 0).immediateDisable = false)
    (hcont : ∀ i, 1 ≤ i → (Es i).softDisable = true ∧
      (Es i).userDisable = false ∧ (Es i).immediateDisable = false) :
    ∀ k, k ≤ 299 →
      (ticks s Es (k + 1)).state = OpState.softDisabling ∧
      (ticks s Es (k + 1)).soft_disable_timer = 300 - k := by
  intro k
  induction k with
  | zero =>
    intro _
    have h := enter_softDisabling s (Es 0) hs hE0.1 hE0.2.1 hE0.2.2
    simpa [ticks] using h
  | succ n ih =>
    intro hn
    have hn' : n ≤ 299 := by omega
    have hprev := ih hn'
    have hflags := hcont (n + 1) (by omega)
    have ht : 2 ≤ (ticks s Es (n + 1)).soft_disable_timer := by
      rw [hprev.2]; omega
    have h := stay_softDisabling (ticks s Es (n + 1)) (Es (n + 1))
      hprev.1 ht hflags.1 hflags.2.1 hflags.2.2
    refine ⟨by simpa [ticks] using h.1, ?_⟩
    have := h.2
    rw [hprev.2] at this
    simpa [ticks] using this.trans (by omega)

/-! ### Claim theorems -/

/-- C2: from the initial state (`disabled`, `enabled = false`,
`active = false`), after any sequence of ticks, `enabled` holds iff the
state is `preEnabled`, `enabled` or `softDisabling`, and `active` holds iff
the state is `enabled` or `softDisabling`. -/
theorem engagement_flags_invariant (s : CtrlState) (h : Reachable s) :
    (s.enabled = true ↔
      (s.state = OpState.preEnabled ∨ s.state = OpState.enabled ∨
       s.state = OpState.softDisabling)) ∧
    (s.active = true ↔
      (s.state = OpState.enabled ∨ s.state = OpState.softDisabling)) := by
  induction h with
  | init => simp [initialState]
  | tick s E h ih =>
    have hA := applyFlags_invariant (transitionCore s E).1
      (transitionCore s E).2
    simpa [state_transition] using hA

/-- Witness for C2 at the initial state. -/
theorem engagement_flags_invariant_witness :
    (initialState.enabled = true ↔
      (initialState.state = OpState.preEnabled ∨
       initialState.state = OpState.enabled ∨
       initialState.state = OpState.softDisabling)) ∧
    (initialState.active = true ↔
      (initialState.state = OpState.enabled ∨
       initialState.state = OpState.softDisabling)) :=
  engagement_flags_invariant initialState Reachable.init

/-- C3: entering `softDisabling` from `enabled` on the tick with events
`Es 0`, and holding `SOFT_DISABLE` with no `USER_DISABLE` or
`IMMEDIATE_DISABLE` from then on, the state is still `softDisabling` on
ticks 1..300 of the episode (the entry tick being tick 1) and first becomes
`disabled` on tick 301 — i.e. exactly 300 ticks after the entry tick, the
301st tick counting the entry tick itself. -/
theorem soft_disable_timeout_timing (s : CtrlState) (Es : Nat → EventFlags)
    (k : Nat) (hs : s.state = OpState.enabled)
    (hE0 : (Es 0).softDisable = true ∧ (Es 0).userDisable = false ∧
      (Es 0).immediateDisable = false)
    (hcont : ∀ i, 1 ≤ i → (Es i).softDisable = true ∧
      (Es i).userDisable = false ∧ (Es i).immediateDisable = false)
    (hk : k ≤ 299) :
    (ticks s Es (k + 1)).state = OpState.softDisabling ∧
    (ticks s Es 301).state = OpState.disabled := by
  refine ⟨(soft_disable_run s Es hs hE0 hcont k hk).1, ?_⟩
  have h300 := soft_disable_run s Es hs hE0 hcont 299 (le_refl 299)
  have hflags := hcont 300 (by omega)
  have hst : (ticks s Es 300).state = OpState.softDisabling := h300.1
  have ht : (ticks s Es 300).soft_disable_timer = 1 := h300.2
  exact exit_softDisabling (ticks s Es 300) (Es 300) hst ht
    hflags.1 hflags.2.1 hflags.2.2

/-- Witness for C3: a concrete run entering `softDisabling` under constant
`SOFT_DISABLE` flags reaches `disabled` exactly on tick 301. -/
theorem soft_disable_timeout_timing_witness :
    (ticks
      { state := OpState.enabled, enabled := true, active := true,
        soft_disable_timer := 0 }
      (fun _ =>
        { userDisable := false, immediateDisable := false,
          softDisable := true, preEnable := false, enable := false,
          noEntry := false }) 300).state = OpState.softDisabling ∧
    (ticks
      { state := OpState.enabled, enabled := true, active := true,
        soft_disable_timer := 0 }
      (fun _ =>
        { userDisable := false, immediateDisable := false,
          softDisable := true, preEnable := false, enable := false,
          noEntry := false }) 301).state = OpState.disabled :=
  soft_disable_timeout_timing _ _ 299 rfl ⟨rfl, rfl, rfl⟩
    (fun _ _ => ⟨rfl, rfl, rfl⟩) (by norm_num)

/-- C8 counterexample: in `softDisabling` with no `SOFT_DISABLE` event but a
`USER_DISABLE` event, the tick ends in `disabled`, not `enabled` — the
claim's unconditional "state at the end of that tick is enabled" is false. -/
theorem soft_disabling_user_disable_counterexample :
    ({ state := OpState.softDisabling, enabled := true, active := true,
       soft_disable_timer := 42 } : CtrlState).state =
      OpState.softDisabling ∧
    ({ userDisable := true, immediateDisable := false, softDisable := false,
       preEnable := false, enable := false, noEntry := false } :
      EventFlags).softDisable = false ∧
    (state_transition
      { state := OpState.softDisabling, enabled := true, active := true,
        soft_disable_timer := 42 }
      { userDisable := true, immediateDisable := false, softDisable := false,
        preEnable := false, enable := false, noEntry := false }).state ≠
      OpState.enabled := by
  decide

/-- C8 (amended): on a tick in `softDisabling` whose events contain no
`SOFT_DISABLE`, no `USER_DISABLE` and no `IMMEDIATE_DISABLE` event, the
state at the end of the transition is `enabled`. -/
theorem soft_disabling_no_soft_disable_recovers (s : CtrlState)
    (E : EventFlags) (hs : s.state = OpState.softDisabling)
    (hsd : E.softDisable = false) (hud : E.userDisable = false)
    (hid : E.immediateDisable = false) :
    (state_transition s E).state = OpState.enabled := by
  simp [state_transition, transitionCore, applyFlags, hs, hsd, hud, hid]

/-- Witness for the amended C8 at a concrete state and event set. -/
theorem soft_disabling_no_soft_disable_recovers_witness :
    (state_transition
      { state := OpState.softDisabling, enabled := true, active := true,
        soft_disable_timer := 42 }
      { userDisable := false, immediateDisable := false, softDisable := false,
        preEnable := false, enable := false, noEntry := false }).state =
      OpState.enabled :=
  soft_disabling_no_soft_disable_recovers _ _ rfl rfl rfl rfl

/-- C4: the finiteness guard leaves the engagement state untouched, emits
only finite numeric actuator fields, replaces each non-finite field by `0.0`
while preserving finite fields, and passes the non-numeric
`longControlState` through. -/
theorem actuators_finiteness_guard (s : CtrlState) (a : Actuators) :
    (state_control_guard s a).1 = s ∧
    ((state_control_guard s a).2.accel.isFinite = true ∧
     (state_control_guard s a).2.steer.isFinite = true ∧
     (state_control_guard s a).2.steeringAngleDeg.isFinite = true) ∧
    ((state_control_guard s a).2.accel =
      if a.accel.isFinite then a.accel else FVal.fin 0) ∧
    ((state_control_guard s a).2.steer =
      if a.steer.isFinite then a.steer else FVal.fin 0) ∧
    ((state_control_guard s a).2.steeringAngleDeg =
      if a.steeringAngleDeg.isFinite then a.steeringAngleDeg
      else FVal.fin 0) ∧
    (state_control_guard s a).2.longControlState = a.longControlState := by
  refine ⟨rfl, ⟨?_, ?_, ?_⟩, rfl, rfl, rfl, rfl⟩
  · cases h : a.accel <;>
      simp [state_control_guard, ensure_no_nans, FVal.isFinite, h]
  · cases h : a.steer <;>
      simp [state_control_guard, ensure_no_nans, FVal.isFinite, h]
  · cases h : a.steeringAngleDeg <;>
      simp [state_control_guard, ensure_no_nans, FVal.isFinite, h]

/-- C5 counterexample: with the joystick debug harness active (joystick
mode, a received `testJoystick` frame, first button pressed) and PCM cruise
disabled, the published cancel flag is true while the claim's right-hand
side is false, so the claimed "if and only if" fails. -/
theorem cruise_cancel_counterexample :
    cruise_cancel false true true true 1 true = true ∧
    cruise_cancel_claimed false true true = false := by
  decide

/-- C5 (amended): the published `cruiseControl.cancel` is true iff the
claim's condition holds or the joystick override fires (joystick mode, a
received `testJoystick` frame, and its first button pressed). -/
theorem cruise_cancel_characterization
    (cruiseStateEnabled enabled pcmCruise joystick_mode : Bool)
    (testJoystickRcvFrame : Nat) (joystickButton0 : Bool) :
    cruise_cancel cruiseStateEnabled enabled pcmCruise joystick_mode
      testJoystickRcvFrame joystickButton0 =
    (cruise_cancel_claimed cruiseStateEnabled enabled pcmCruise ||
      (joystick_mode && decide (0 < testJoystickRcvFrame) &&
        joystickButton0)) := by
  cases hj : joystick_mode && decide (0 < testJoystickRcvFrame) &&
      joystickButton0 <;>
    simp [cruise_cancel, cruise_cancel_claimed, hj]

/-- C6: under adaptive cruise with a positive stored value, one call of the
low-pass moves `max_speed_clu` by `0.01 · (target − x)`, so the distance to
the target shrinks by exactly the factor `0.99`; in every case the new
value lies between the old value and the target (no overshoot, monotone
convergence); otherwise the value snaps to the target. -/
theorem update_max_speed_lowpass (max_speed : ℚ) (adaptiveCruise : Bool)
    (max_speed_clu : ℚ) :
    update_max_speed max_speed adaptiveCruise max_speed_clu =
      (if adaptiveCruise = false ∨ max_speed_clu ≤ 0 then max_speed
       else max_speed_clu + (max_speed - max_speed_clu) * (1 / 100)) ∧
    |max_speed - update_max_speed max_speed adaptiveCruise max_speed_clu| =
      (if adaptiveCruise = false ∨ max_speed_clu ≤ 0 then 0
       else (99 / 100) * |max_speed - max_speed_clu|) ∧
    min max_speed_clu max_speed ≤
      update_max_speed max_speed adaptiveCruise max_speed_clu ∧
    update_max_speed max_speed adaptiveCruise max_speed_clu ≤
      max max_speed_clu max_speed := by
  unfold update_max_speed
  by_cases h : adaptiveCruise = false ∨ max_speed_clu ≤ 0
  · simp [h]
  · have he : max_speed - (max_speed_clu +
        (max_speed - max_speed_clu) * (1 / 100)) =
        (99 / 100) * (max_speed - max_speed_clu) := by ring
    refine ⟨by simp [h], ?_, ?_, ?_⟩
    · rw [if_neg h, if_neg h, he, abs_mul,
        abs_of_nonneg (by norm_num : (0 : ℚ) ≤ 99 / 100)]
    · rw [if_neg h]
      rcases le_total max_speed_clu max_speed with hle | hle
      · rw [min_eq_left hle]
        nlinarith
      · rw [min_eq_right hle]
        nlinarith
    · rw [if_neg h]
      rcases le_total max_speed_clu max_speed with hle | hle
      · rw [max_eq_right hle]
        nlinarith
      · rw [max_eq_left hle]
        nlinarith

/-- C7: the lead-vehicle safe speed computed by the source equals the
claim's piecewise description — under adaptive cruise with a present lead,
closing faster than 1 unit with `0 < dRel − 5 < −vRel·24`, the value is
`max(vEgo + accel, min_set_speed_clu)` for
`accel = −(vRel/t)·speedConvToClu·0.001`, `t = (dRel−5)/vRel`, when that
`accel` is negative; in every other case it is 0. -/
theorem get_long_lead_safe_speed_correct (vEgo : ℚ) (radarLeadOne : LeadOne)
    (adaptiveCruise : Bool) (speed_conv_to_clu min_set_speed_clu : ℚ) :
    get_long_lead_safe_speed vEgo radarLeadOne adaptiveCruise
      speed_conv_to_clu min_set_speed_clu =
    long_lead_safe_speed_spec vEgo radarLeadOne.dRel radarLeadOne.vRel
      radarLeadOne.status adaptiveCruise speed_conv_to_clu
      min_set_speed_clu := by
  rcases radarLeadOne with ⟨st, dR, vR⟩
  unfold get_long_lead_safe_speed long_lead_safe_speed_spec get_lead
  cases adaptiveCruise <;> cases st <;> simp
  refine if_congr ?_ rfl rfl
  rw [show ((9 : ℚ) + 3) * 2 = 24 by norm_num]
  constructor
  · rintro ⟨h1, h2, h3⟩
    exact ⟨h3, h1, h2⟩
  · rintro ⟨h1, h2, h3⟩
    exact ⟨h2, h3, h1⟩

/-- C10: in the lead-clamp block of `cal_max_speed`, `limited_lead` is set
to `false` only when the lead-safe speed is below `min_set_speed_clu`
(including the 0 of a missing lead or disabled adaptive cruise); when the
lead-safe speed is at least `min_set_speed_clu` but not below the current
candidate, the flag and both speed fields keep their previous values; and
the one-shot re-seed of `self.max_speed_clu` to `vEgo + 3` happens exactly
when the clamp binds and `limited_lead` was false beforehand. -/
theorem limited_lead_characterization (vEgo : ℚ) (radarLeadOne : LeadOne)
    (adaptiveCruise : Bool) (speed_conv_to_clu min_set_speed_clu : ℚ)
    (max_speed_local max_speed_clu : ℚ) (limited_lead : Bool) :
    (lead_clamp vEgo radarLeadOne adaptiveCruise speed_conv_to_clu
        min_set_speed_clu max_speed_local max_speed_clu
        limited_lead).limited_lead =
      (if get_long_lead_safe_speed vEgo radarLeadOne adaptiveCruise
            speed_conv_to_clu min_set_speed_clu < min_set_speed_clu
       then false
       else if get_long_lead_safe_speed vEgo radarLeadOne adaptiveCruise
            speed_conv_to_clu min_set_speed_clu < max_speed_local
       then true
       else limited_lead) ∧
    (lead_clamp vEgo radarLeadOne adaptiveCruise speed_conv_to_clu
        min_set_speed_clu max_speed_local max_speed_clu
        limited_lead).max_speed_clu =
      (if min_set_speed_clu ≤ get_long_lead_safe_speed vEgo radarLeadOne
            adaptiveCruise speed_conv_to_clu min_set_speed_clu ∧
          get_long_lead_safe_speed vEgo radarLeadOne adaptiveCruise
            speed_conv_to_clu min_set_speed_clu < max_speed_local ∧
          limited_lead = false
       then vEgo + 3 else max_speed_clu) ∧
    (lead_clamp vEgo radarLeadOne adaptiveCruise speed_conv_to_clu
        min_set_speed_clu max_speed_local max_speed_clu
        limited_lead).max_speed_local =
      (if min_set_speed_clu ≤ get_long_lead_safe_speed vEgo radarLeadOne
            adaptiveCruise speed_conv_to_clu min_set_speed_clu ∧
          get_long_lead_safe_speed vEgo radarLeadOne adaptiveCruise
            speed_conv_to_clu min_set_speed_clu < max_speed_local
       then min max_speed_local (get_long_lead_safe_speed vEgo radarLeadOne
            adaptiveCruise speed_conv_to_clu min_set_speed_clu)
       else max_speed_local) := by
  set ls := get_long_lead_safe_speed vEgo radarLeadOne adaptiveCruise
    speed_conv_to_clu min_set_speed_clu with hls
  unfold lead_clamp
  rw [← hls]
  by_cases h1 : min_set_speed_clu ≤ ls
  · have h1' : ¬ ls < min_set_speed_clu := not_lt.mpr h1
    by_cases h2 : ls < max_speed_local
    · by_cases h3 : limited_lead = false
      · simp [h1, h1', h2, h3]
      · simp [h1, h1', h2, h3]
    · simp [h1, h1', h2]
  · have h1' : ls < min_set_speed_clu := not_le.mp h1
    simp [h1, h1']

/-- The event loop equals "some panda mismatches, or there is at least one
panda and the counter has reached 200", at any starting index. -/
theorem controls_mismatch_loop_eq (cfgs : List SafetyConfig)
    (mismatch_counter : Nat) :
    ∀ (pandas : List PandaState) (i : Nat),
      controls_mismatch_loop cfgs mismatch_counter i pandas =
        (any_safety_mismatch cfgs i pandas ||
          (!pandas.isEmpty && decide (200 ≤ mismatch_counter))) := by
  intro pandas
  induction pandas with
  | nil =>
    intro i
    simp [controls_mismatch_loop, any_safety_mismatch]
  | cons p rest ih =>
    intro i
    rw [controls_mismatch_loop, any_safety_mismatch, ih (i + 1)]
    cases safety_mismatch cfgs i p <;>
      cases any_safety_mismatch cfgs (i + 1) rest <;>
      cases hc : decide (200 ≤ mismatch_counter) <;>
      cases rest.isEmpty <;> simp

/-- C9 counterexample: with a single panda that exactly matches its
configured safety config and the mismatch counter equal to 200, the code
adds `controlsMismatch` (it tests `counter >= 200`), while the claim's
condition — a deviating panda or a counter exceeding 200 — is false. -/
theorem controls_mismatch_counterexample :
    controls_mismatch_event
      [{ safetyModel := SafetyModel.other 0, safetyParam := 0,
         controlsAllowed := true }]
      [{ safetyModel := SafetyModel.other 0, safetyParam := 0 }] 200 =
      true ∧
    controls_mismatch_claimed
      [{ safetyModel := SafetyModel.other 0, safetyParam := 0,
         controlsAllowed := true }]
      [{ safetyModel := SafetyModel.other 0, safetyParam := 0 }] 200 =
      false := by
  decide

/-- C9 (amended): `update_events` adds `controlsMismatch` exactly when some
panda's `(safetyModel, safetyParam)` deviates from the configured entry at
its index (a panda beyond the configured list counting as deviating unless
its safety model is `silent` or `noOutput`), or at least one panda is
present and the persisted mismatch counter has reached 200 (`>= 200`). -/
theorem controls_mismatch_characterization (pandas : List PandaState)
    (cfgs : List SafetyConfig) (mismatch_counter : Nat) :
    controls_mismatch_event pandas cfgs mismatch_counter =
      controls_mismatch_amended pandas cfgs mismatch_counter := by
  unfold controls_mismatch_event controls_mismatch_amended
  exact controls_mismatch_loop_eq cfgs mismatch_counter pandas 0

/-- C1 counterexample: at `frame = 10` (so `frame mod 20 ≠ 0`) the
`cal_curve_speed` that actually runs — the second definition, which shadows
the first — recomputes `curve_speed_ms` (here the degenerate path sets it
to 255), while the first (shadowed) definition that the claim describes
would leave the previous value 0 unchanged on that tick. -/
theorem cal_curve_speed_cadence_counterexample :
    (10 : Nat) % 20 ≠ 0 ∧
    cal_curve_speed { x := [], y := [] } 20 10 0 = 255 ∧
    cal_curve_speed_shadowed 1 { x := [], y := [] } 20 10 0 = 0 := by
  refine ⟨by norm_num, ?_, ?_⟩
  · norm_num [cal_curve_speed, TRAJECTORY_SIZE]
  · norm_num [cal_curve_speed_shadowed]

/-- C1 (amended): the curve speed is recomputed only on ticks where
`frame mod 10 = 0`; on such a tick, for a path of length `TRAJECTORY_SIZE`,
the window is the fixed slice `curv[5 : TRAJECTORY_SIZE − 10]`, the speed is
`mean(sqrt(a_y_max / max(|κ|, 1e-4)))·0.70` with
`a_y_max = 2.975 − 0.0375·vEgo`, kept when below `vEgo` (floored at 32 km/h
in m/s) and 255 otherwise; a mismatched path length gives 255; on all other
ticks the previous value is kept. -/
theorem cal_curve_speed_characterization (md : ModelPosition) (v_ego : ℝ)
    (frame : Nat) (curve_speed_ms : ℝ) :
    cal_curve_speed md v_ego frame curve_speed_ms =
      (if frame % 10 = 0 then
        if md.x.length = TRAJECTORY_SIZE ∧ md.y.length = TRAJECTORY_SIZE then
          if curve_speed_formula_amended md v_ego < v_ego then
            max (curve_speed_formula_amended md v_ego) (32 * KPH_TO_MS)
          else 255
        else 255
      else curve_speed_ms) := by
  have hms : cal_curve_model_speed md v_ego =
      curve_speed_formula_amended md v_ego := by
    unfold cal_curve_model_speed curve_speed_formula_amended
    rw [mul_comm]
    congr 1
    congr 1
    simp [List.map_map, Function.comp]
  unfold cal_curve_speed
  rw [hms]
